import Mathlib

set_option maxRecDepth 100000

/-!
Verification of the zoopx universal-router-solana core against its
specification.  The programs under `programs/zpx_router` (lib.rs, hash.rs)
and the adapter programs (`zpx_adapter`, `zpx_adapter_cctp_v1`,
`zpx_adapter_cctp_v2`) are shallowly embedded below: pure Rust functions
become Lean functions over `Nat` (machine integers are modelled as `Nat`
with explicit `% 2^64` where a truncating cast occurs), fallible
entrypoints return `Except`, and on-chain accounts are passed as explicit
structure values.  Solana account addresses (`Pubkey`) are modelled as
`Nat`; PDA derivation (`Pubkey::find_program_address`) is an external
cryptographic primitive, so derived addresses enter the model as explicit
inputs.  Token transfers performed through the SPL token program are
recorded as an ordered list of `TransferOp` values; a failing instruction
returns `Except.error` and, by Solana's transaction atomicity, performs no
transfer and leaves every account unchanged.
-/

namespace Zpx

/-! ### Keccak-256
Models the external `tiny_keccak::Keccak::v256` primitive that
`programs/zpx_router/src/hash.rs` uses (rate 136, multi-rate padding with
domain byte 0x01).  Bytes are `Nat` values below 256, lanes are `Nat`
values below `2^64`. -/

def rotl64 (x n : Nat) : Nat := ((x <<< n) ||| (x >>> (64 - n))) % (2 ^ 64)

/-- The degree-8 LFSR of the Keccak round-constant schedule: `rcLfsr t` is
the register after `t` steps from `0x01`. -/
def rcLfsr : Nat → Nat
  | 0 => 1
  | t + 1 =>
    let r := rcLfsr t
    ((r <<< 1) ^^^ ((r >>> 7) * 0x71)) % 256

/-- The 24 round constants, generated from the LFSR: bit `2^j - 1` of
constant `i` is the LFSR output at step `7*i + j`. -/
def keccakRC : List Nat :=
  (List.range 24).map fun i =>
    (List.range 7).foldl (fun acc j => acc ^^^ ((rcLfsr (7 * i + j) % 2) <<< (2 ^ j - 1))) 0

/-- The rho rotation offsets (lane order `x + 5*y`), generated by walking
the standard `(x, y) := (y, (2x + 3y) % 5)` orbit from `(1, 0)` with
offset `(t+1)(t+2)/2 mod 64` at step `t`. -/
def keccakRho : List Nat :=
  ((List.range 24).foldl
    (fun (st : List Nat × Nat × Nat) t =>
      ((st.1.set (st.2.1 + 5 * st.2.2) ((t + 1) * (t + 2) / 2 % 64)),
        st.2.2, (2 * st.2.1 + 3 * st.2.2) % 5))
    (List.replicate 25 0, 1, 0)).1

def thetaStep (s : List Nat) : List Nat :=
  let c := (List.range 5).map fun x =>
    s.getD x 0 ^^^ s.getD (x + 5) 0 ^^^ s.getD (x + 10) 0 ^^^ s.getD (x + 15) 0 ^^^
      s.getD (x + 20) 0
  let d := (List.range 5).map fun x =>
    c.getD ((x + 4) % 5) 0 ^^^ rotl64 (c.getD ((x + 1) % 5) 0) 1
  (List.range 25).map fun i => s.getD i 0 ^^^ d.getD (i % 5) 0

def rhoPiStep (s : List Nat) : List Nat :=
  (List.range 25).foldl
    (fun b i =>
      let x := i % 5
      let y := i / 5
      b.set (y + 5 * ((2 * x + 3 * y) % 5)) (rotl64 (s.getD i 0) (keccakRho.getD i 0)))
    (List.replicate 25 0)

def chiStep (b : List Nat) : List Nat :=
  (List.range 25).map fun i =>
    let x := i % 5
    let y := i / 5
    b.getD i 0 ^^^
      ((b.getD ((x + 1) % 5 + 5 * y) 0 ^^^ 0xffffffffffffffff) &&&
        b.getD ((x + 2) % 5 + 5 * y) 0)

def keccakRound (s : List Nat) (rc : Nat) : List Nat :=
  let b := chiStep (rhoPiStep (thetaStep s))
  b.set 0 (b.getD 0 0 ^^^ rc)

def keccakP (s : List Nat) : List Nat := keccakRC.foldl keccakRound s

def leBytesToLane (bs : List Nat) : Nat := bs.foldr (fun b acc => b + 256 * acc) 0

def laneToLeBytes (n : Nat) : List Nat := (List.range 8).map fun i => (n >>> (8 * i)) % 256

def absorbBlock (st block : List Nat) : List Nat :=
  keccakP <| (List.range 25).map fun i =>
    st.getD i 0 ^^^ (if i < 17 then leBytesToLane ((block.drop (8 * i)).take 8) else 0)

def absorbBlocks : Nat → List Nat → List Nat → List Nat
  | 0, st, _ => st
  | n + 1, st, data => absorbBlocks n (absorbBlock st (data.take 136)) (data.drop 136)

def keccakPad (msg : List Nat) : List Nat :=
  let padlen := 136 - msg.length % 136
  if padlen == 1 then msg ++ [0x81]
  else msg ++ (0x01 :: List.replicate (padlen - 2) 0) ++ [0x80]

def keccak256Bytes (msg : List Nat) : List Nat :=
  let padded := keccakPad msg
  let st := absorbBlocks (padded.length / 136) (List.replicate 25 0) padded
  ((List.range 4).map fun i => laneToLeBytes (st.getD i 0)).flatten

/-! ### hash.rs -/

/-- `keccak256` of hash.rs: hash the concatenation of the given parts
(`tiny_keccak` absorbs each `update` in sequence, which is the hash of the
concatenation). -/
def keccak256 (parts : List (List Nat)) : List Nat := keccak256Bytes parts.flatten

/-- Big-endian byte encoding of a `w`-byte unsigned integer
(`u64::to_be_bytes` is `beBytes 8`, a 32-byte field is `beBytes 32`). -/
def beBytes (w n : Nat) : List Nat := (List.range w).map fun i => (n >>> (8 * (w - 1 - i))) % 256

/-- The packed canonical-message buffer built by `message_hash_be` in hash.rs:
`(srcChainId u64 BE) | (srcAdapter [32]) | (recipient [32]) | (asset [32]) |
(amount uint256 BE [32]) | (payloadHash [32]) | (nonce u64 BE) | (dstChainId u64 BE)`. -/
def message_packed_bytes (src_chain_id : Nat)
    (src_adapter_32 recipient_32 asset_32 amount_be payload_hash : List Nat)
    (nonce dst_chain_id : Nat) : List Nat :=
  beBytes 8 src_chain_id ++ src_adapter_32 ++ recipient_32 ++ asset_32 ++ amount_be ++
    payload_hash ++ beBytes 8 nonce ++ beBytes 8 dst_chain_id

/-- `message_hash_be` of hash.rs: keccak over the packed canonical tuple. -/
def message_hash_be (src_chain_id : Nat)
    (src_adapter_32 recipient_32 asset_32 amount_be payload_hash : List Nat)
    (nonce dst_chain_id : Nat) : List Nat :=
  keccak256 [message_packed_bytes src_chain_id src_adapter_32 recipient_32 asset_32
    amount_be payload_hash nonce dst_chain_id]

/-- The packed buffer built by `global_route_id` in hash.rs:
`BE(srcChainId) | BE(dstChainId) | initiator[32] | messageHash[32] | BE(nonce)`. -/
def route_packed_bytes (src_chain_id dst_chain_id : Nat)
    (initiator_32 message_hash : List Nat) (nonce : Nat) : List Nat :=
  beBytes 8 src_chain_id ++ beBytes 8 dst_chain_id ++ initiator_32 ++ message_hash ++
    beBytes 8 nonce

/-- `global_route_id` of hash.rs. -/
def global_route_id (src_chain_id dst_chain_id : Nat)
    (initiator_32 message_hash : List Nat) (nonce : Nat) : List Nat :=
  keccak256 [route_packed_bytes src_chain_id dst_chain_id initiator_32 message_hash nonce]

/-! ### zpx_router lib.rs: data model -/

/-- Account addresses are opaque 32-byte values; the model identifies them
with natural numbers (their big-endian value). `Pubkey::default()` is the
all-zero key, i.e. `0`. -/
abbrev Pubkey := Nat

/-- The SPL token program id (`anchor_spl::token::ID`,
`TokenkegQfeZyiNwAJbNbGKPFXCWuBvf9Ss623VQ5DA`), as the big-endian value of
its 32 bytes. -/
def TOKEN_PROGRAM_ID : Pubkey :=
  0x06ddf6e1d765a193d9cbe146ceeb79ac1cb485ed5f5b37913a8cf5857eff00a9

/-- `u64` range bound: a checked u64 addition overflows iff the sum reaches
this value. -/
def U64_MOD : Nat := 2 ^ 64

/-- protocol fee cap (0.05%), `FEE_CAP_BPS` in lib.rs. -/
def FEE_CAP_BPS : Nat := 5

/-- relayer fee cap (10%), `RELAYER_FEE_CAP_BPS` in lib.rs. -/
def RELAYER_FEE_CAP_BPS : Nat := 1000

def MAX_SPOKES : Nat := 32

def SPOKE_METADATA_LEN : Nat := 16

/-- The router's `ErrorCode` enum. -/
inductive ErrorCode
  | Unauthorized
  | Paused
  | SrcChainNotSet
  | ZeroAmount
  | PayloadTooLarge
  | ProtocolFeeTooHigh
  | RelayerFeeTooHigh
  | FeesExceedAmount
  | AdapterAlreadyExists
  | AdapterNotAllowed
  | AdapterListFull
  | MathOverflow
  | InvalidTokenProgram
  | ChainIdOutOfRange
  | InvalidFeeRecipientAta
  | PlaceholderProgramId
  | InvalidReplayPda
  | InvalidReplayOwner
  | ReplayAccountTooSmall
  | ReplayAlreadyProcessed
  | HashMismatch
  | InvalidVaultPda
  | InvalidVaultOwner
  deriving DecidableEq, Repr

/-- An error surfaced by an entrypoint: one of the program's `ErrorCode`s,
or a violated Anchor account constraint without a custom error code
(a raw `#[account(constraint = ...)]`). -/
inductive RouterErr
  | code : ErrorCode → RouterErr
  | anchorConstraint : RouterErr
  deriving DecidableEq, Repr

instance {ε α : Type} [DecidableEq ε] [DecidableEq α] : DecidableEq (Except ε α) := fun a b =>
  match a, b with
  | .ok x, .ok y => if h : x = y then .isTrue (by rw [h]) else .isFalse (by simp [h])
  | .error x, .error y => if h : x = y then .isTrue (by rw [h]) else .isFalse (by simp [h])
  | .ok _, .error _ => .isFalse (by simp)
  | .error _, .ok _ => .isFalse (by simp)

/-- The singleton `Config` account. -/
structure Config where
  admin : Pubkey
  fee_recipient : Pubkey
  src_chain_id : Nat
  relayer_fee_bps : Nat
  protocol_fee_bps : Nat
  relayer_pubkey : Pubkey
  accept_any_token : Bool
  allowed_token_mint : Pubkey
  direct_relayer_payout_default : Bool
  min_forward_amount : Nat
  adapters_len : Nat
  adapters : List Pubkey
  paused : Bool
  bump : Nat
  deriving DecidableEq, Repr

/-- One entry of the spoke `Registry`. -/
structure SpokeEntry where
  spoke_id : Nat
  adapter_program : Pubkey
  enabled : Bool
  paused : Bool
  direct_relayer_payout : Bool
  version : Nat
  metadata : List Nat
  created_at_slot : Nat
  deriving DecidableEq, Repr

instance : Inhabited SpokeEntry :=
  ⟨{ spoke_id := 0, adapter_program := 0, enabled := false, paused := false,
     direct_relayer_payout := false, version := 0,
     metadata := List.replicate SPOKE_METADATA_LEN 0, created_at_slot := 0 }⟩

/-- The singleton spoke `Registry` account: a fixed array of `MAX_SPOKES`
entries of which the first `spokes_len` are live. -/
structure Registry where
  spokes_len : Nat
  spokes : List SpokeEntry
  bump : Nat
  deriving DecidableEq, Repr

/-- The fields of an SPL token account the router reads: its address, the
program that owns the account data (only the SPL token program for a valid
token account), the token account's recorded authority (the `owner` field
inside the account data) and its mint. -/
structure TokenAccountView where
  key : Pubkey
  ownerProg : Pubkey
  authority : Pubkey
  mint : Pubkey
  deriving DecidableEq, Repr

/-- A completed SPL `token::transfer` CPI: source account, destination
account, amount. -/
structure TransferOp where
  source : Pubkey
  dest : Pubkey
  amount : Nat
  deriving DecidableEq, Repr

/-! ### zpx_router lib.rs: pure helpers -/

/-- `compute_fees_and_forward` of lib.rs.  The two cap comparisons are the
source's `u128`-widened cross-multiplications (exact on `Nat`: for `u64`/
`u16` inputs the products stay far below `2^128`); the `checked_add` of the
two `u64` fees overflows exactly when the sum reaches `2^64`. -/
def compute_fees_and_forward (amount protocol_fee relayer_fee relayer_bps_cap : Nat) :
    Except ErrorCode (Nat × Nat) :=
  if amount = 0 then .error .ZeroAmount
  else if amount * FEE_CAP_BPS < protocol_fee * 10000 then .error .ProtocolFeeTooHigh
  else if 0 < relayer_bps_cap ∧ amount * relayer_bps_cap < relayer_fee * 10000 then
    .error .RelayerFeeTooHigh
  else if U64_MOD ≤ protocol_fee + relayer_fee then .error .MathOverflow
  else
    let total_fees := protocol_fee + relayer_fee
    if amount < total_fees then .error .FeesExceedAmount
    else .ok (amount - total_fees, total_fees)

/-- `is_allowed_adapter_cfg` of lib.rs: linear scan over the first
`adapters_len` slots (a slot beyond the list is `Pubkey::default() = 0`). -/
def is_allowed_adapter_cfg (cfg : Config) (program : Pubkey) : Bool :=
  (List.range cfg.adapters_len).any fun i => cfg.adapters.getD i 0 == program

/-- `validate_common` of lib.rs. -/
def validate_common (amount : Nat) (payload_len : Nat) (paused : Bool) (src_chain_id : Nat) :
    Except ErrorCode Unit :=
  if paused then .error .Paused
  else if src_chain_id = 0 then .error .SrcChainNotSet
  else if amount = 0 then .error .ZeroAmount
  else if 512 < payload_len then .error .PayloadTooLarge
  else .ok ()

/-- `validate_payload_len` of lib.rs. -/
def validate_payload_len (payload_len : Nat) : Except ErrorCode Unit :=
  if 512 < payload_len then .error .PayloadTooLarge
  else .ok ()

/-- `validate_vault_pda_or_authority` of lib.rs.  The source first derives
`(expected_vault, bump) = find_program_address(["hub_protocol_vault", mint],
program_id)`; that derivation is an external cryptographic primitive, so
the derived address and bump are inputs of the model. -/
def validate_vault_pda_or_authority (vault : TokenAccountView)
    (expected_vault : Pubkey) (bump : Nat) : Except ErrorCode (Nat × Pubkey) :=
  if vault.ownerProg ≠ TOKEN_PROGRAM_ID then .error .InvalidTokenProgram
  else if vault.key = expected_vault then
    if vault.authority = expected_vault then .ok (bump, expected_vault)
    else .error .InvalidVaultOwner
  else if vault.authority = expected_vault then .ok (bump, expected_vault)
  else .error .InvalidVaultPda

/-! ### zpx_router lib.rs: spoke registry operations -/

/-- The `for i in 0..len { if spokes[i].spoke_id == sid { break } }` scan
shared by the spoke entrypoints: index of the first live entry with the
given spoke id. -/
def findSpokeIdx : List SpokeEntry → Nat → Nat → Option Nat
  | [], _, _ => none
  | _, 0, _ => none
  | e :: rest, len + 1, sid =>
    if e.spoke_id = sid then some 0 else (findSpokeIdx rest len sid).map (· + 1)

/-- First live registry entry with the given spoke id, together with its
index. -/
def lookupSpoke (reg : Registry) (sid : Nat) : Option (Nat × SpokeEntry) :=
  match findSpokeIdx reg.spokes reg.spokes_len sid with
  | none => none
  | some i => (reg.spokes.get? i).map fun e => (i, e)

/-- The admin gate shared by `create_spoke`, `update_spoke`, `pause_spoke`
and `enable_spoke`:
`cfg.admin == ctx.accounts.authority.key() || ctx.accounts.admin.key() == cfg.admin`.
`authority` is the transaction signer; `adminAcc` is the key of the
separate `admin` account, an `UncheckedAccount` that need not sign. -/
def spoke_admin_check (cfg : Config) (authority adminAcc : Pubkey) : Bool :=
  cfg.admin == authority || adminAcc == cfg.admin

/-- Truncate-and-pad a metadata string's bytes into the fixed
`SPOKE_METADATA_LEN`-byte field, as `create_spoke`/`update_spoke` do. -/
def metaBytes (m : List Nat) : List Nat :=
  m.take SPOKE_METADATA_LEN ++ List.replicate (SPOKE_METADATA_LEN - min m.length SPOKE_METADATA_LEN) 0

/-- `create_spoke` of lib.rs.  `slot` is `Clock::get()?.slot`. -/
def create_spoke (cfg : Config) (reg : Registry) (authority adminAcc : Pubkey)
    (spoke_id : Nat) (adapter_program : Pubkey) (direct_relayer_payout : Bool)
    (version : Nat) (metadata : Option (List Nat)) (slot : Nat) :
    Except ErrorCode Registry :=
  if ¬ spoke_admin_check cfg authority adminAcc then .error .Unauthorized
  else if ¬ (reg.spokes_len < MAX_SPOKES) then .error .AdapterListFull
  else if (findSpokeIdx reg.spokes reg.spokes_len spoke_id).isSome then
    .error .AdapterAlreadyExists
  else
    let entry : SpokeEntry :=
      { spoke_id, adapter_program, enabled := true, paused := false,
        direct_relayer_payout, version,
        metadata := (match metadata with
          | none => List.replicate SPOKE_METADATA_LEN 0
          | some m => metaBytes m),
        created_at_slot := slot }
    .ok { reg with
          spokes := (reg.spokes.set reg.spokes_len entry),
          spokes_len := reg.spokes_len + 1 }

/-- `update_spoke` of lib.rs: optional-field patch of the matching entry. -/
def update_spoke (cfg : Config) (reg : Registry) (authority adminAcc : Pubkey)
    (spoke_id : Nat) (adapter_program : Option Pubkey)
    (direct_relayer_payout : Option Bool) (paused : Option Bool)
    (metadata : Option (List Nat)) : Except ErrorCode Registry :=
  if ¬ spoke_admin_check cfg authority adminAcc then .error .Unauthorized
  else match lookupSpoke reg spoke_id with
    | none => .error .AdapterNotAllowed
    | some (i, e) =>
      let e := match adapter_program with | some p => { e with adapter_program := p } | none => e
      let e := match direct_relayer_payout with
        | some d => { e with direct_relayer_payout := d } | none => e
      let e := match paused with | some p => { e with paused := p } | none => e
      let e := match metadata with | some m => { e with metadata := metaBytes m } | none => e
      .ok { reg with spokes := (reg.spokes.set i e) }

/-- `pause_spoke` of lib.rs. -/
def pause_spoke (cfg : Config) (reg : Registry) (authority adminAcc : Pubkey)
    (spoke_id : Nat) : Except ErrorCode Registry :=
  if ¬ spoke_admin_check cfg authority adminAcc then .error .Unauthorized
  else match lookupSpoke reg spoke_id with
    | none => .error .AdapterNotAllowed
    | some (i, e) => .ok { reg with spokes := (reg.spokes.set i { e with paused := true }) }

/-- `enable_spoke` of lib.rs. -/
def enable_spoke (cfg : Config) (reg : Registry) (authority adminAcc : Pubkey)
    (spoke_id : Nat) : Except ErrorCode Registry :=
  if ¬ spoke_admin_check cfg authority adminAcc then .error .Unauthorized
  else match lookupSpoke reg spoke_id with
    | none => .error .AdapterNotAllowed
    | some (i, e) => .ok { reg with spokes := (reg.spokes.set i { e with paused := false }) }

/-! ### zpx_router lib.rs: universal_bridge_transfer -/

/-- The `BridgeInitiated` event (schema frozen in lib.rs). -/
structure BridgeInitiated where
  route_id : List Nat
  user : Pubkey
  token : Pubkey
  target : Pubkey
  forwarded_amount : Nat
  protocol_fee : Nat
  relayer_fee : Nat
  payload_hash : List Nat
  src_chain_id : Nat
  dst_chain_id : Nat
  nonce : Nat
  deriving DecidableEq, Repr

/-- The `UniversalBridgeInitiated` event (schema frozen in lib.rs). -/
structure UniversalBridgeInitiated where
  route_id : List Nat
  payload_hash : List Nat
  message_hash : List Nat
  global_route_id : List Nat
  user : Pubkey
  token : Pubkey
  target : Pubkey
  forwarded_amount : Nat
  protocol_fee : Nat
  relayer_fee : Nat
  src_chain_id : Nat
  dst_chain_id : Nat
  nonce : Nat
  deriving DecidableEq, Repr

/-- The `FeeAppliedSource` event (schema frozen in lib.rs). -/
structure FeeAppliedSource where
  message_hash : List Nat
  asset : Pubkey
  payer : Pubkey
  target : Pubkey
  protocol_fee : Nat
  relayer_fee : Nat
  fee_recipient : Pubkey
  applied_at : Nat
  deriving DecidableEq, Repr

/-- The accounts of the `UniversalBridgeTransfer` context.
`expected_fee_ata` is the result of the associated-token-address PDA
derivation `find_program_address([fee_recipient, token_program, mint],
associated_token::ID)` (an external cryptographic primitive); `now` is
`Clock::get()?.unix_timestamp`. -/
structure UbtAccounts where
  user : Pubkey
  mint : Pubkey
  fromAcc : TokenAccountView
  fee_recipient_ata : TokenAccountView
  target_token_account : TokenAccountView
  target_adapter_program : Pubkey
  token_program : Pubkey
  expected_fee_ata : Pubkey
  now : Nat
  deriving DecidableEq, Repr

/-- What a successful `universal_bridge_transfer` does: the SPL transfers it
performed and the events it emitted (`FeeAppliedSource` only when fees were
taken). -/
structure UbtOutcome where
  transfers : List TransferOp
  bridge_event : BridgeInitiated
  universal_event : UniversalBridgeInitiated
  fee_event : Option FeeAppliedSource
  deriving DecidableEq, Repr

/-- `universal_bridge_transfer` of lib.rs (pull -> skim -> forward -> emit).
The first five guards are the Anchor `#[derive(Accounts)]` constraints of
`UniversalBridgeTransfer`, checked before the instruction body runs.  In
the Phase‑1 source the hashing step is removed and the emitted
`message_hash`/`global_route_id`/`route_id`/`payload_hash` fields are
zeroed 32-byte placeholders. -/
def universal_bridge_transfer (cfg : Config) (acc : UbtAccounts)
    (amount protocol_fee relayer_fee : Nat) (payload : List Nat)
    (dst_chain_id nonce : Nat) : Except RouterErr UbtOutcome :=
  if acc.fromAcc.authority ≠ acc.user then .error .anchorConstraint
  else if acc.fromAcc.mint ≠ acc.mint then .error .anchorConstraint
  else if acc.fee_recipient_ata.mint ≠ acc.mint then .error .anchorConstraint
  else if acc.fee_recipient_ata.authority ≠ cfg.fee_recipient then
    .error (.code .InvalidFeeRecipientAta)
  else if acc.target_token_account.mint ≠ acc.mint then .error .anchorConstraint
  else if ¬ (cfg.src_chain_id ≤ 65535 ∧ dst_chain_id ≤ 65535) then
    .error (.code .ChainIdOutOfRange)
  else if acc.token_program ≠ TOKEN_PROGRAM_ID then .error (.code .InvalidTokenProgram)
  else if cfg.paused then .error (.code .Paused)
  else if cfg.src_chain_id = 0 then .error (.code .SrcChainNotSet)
  else match validate_common amount payload.length cfg.paused cfg.src_chain_id with
  | .error e => .error (.code e)
  | .ok _ =>
  match validate_payload_len payload.length with
  | .error e => .error (.code e)
  | .ok _ =>
  if ¬ is_allowed_adapter_cfg cfg acc.target_adapter_program then
    .error (.code .AdapterNotAllowed)
  else match compute_fees_and_forward amount protocol_fee relayer_fee cfg.relayer_fee_bps with
  | .error e => .error (.code e)
  | .ok (forward_amount, total_fees) =>
  if acc.fee_recipient_ata.key ≠ acc.expected_fee_ata then
    .error (.code .InvalidFeeRecipientAta)
  else if acc.fee_recipient_ata.ownerProg ≠ TOKEN_PROGRAM_ID then
    .error (.code .InvalidTokenProgram)
  else if acc.fee_recipient_ata.mint ≠ acc.mint then .error (.code .InvalidFeeRecipientAta)
  else
    let transfers :=
      (if 0 < total_fees then
        [{ source := acc.fromAcc.key, dest := acc.fee_recipient_ata.key,
           amount := total_fees : TransferOp }] else []) ++
      (if 0 < forward_amount then
        [{ source := acc.fromAcc.key, dest := acc.target_token_account.key,
           amount := forward_amount : TransferOp }] else [])
    let zero32 : List Nat := List.replicate 32 0
    .ok
      { transfers,
        bridge_event :=
          { route_id := zero32, user := acc.user, token := acc.mint,
            target := acc.target_adapter_program, forwarded_amount := forward_amount,
            protocol_fee, relayer_fee, payload_hash := zero32,
            src_chain_id := cfg.src_chain_id % 65536, dst_chain_id := dst_chain_id % 65536,
            nonce },
        universal_event :=
          { route_id := zero32, payload_hash := zero32, message_hash := zero32,
            global_route_id := zero32, user := acc.user, token := acc.mint,
            target := acc.target_adapter_program, forwarded_amount := forward_amount,
            protocol_fee, relayer_fee,
            src_chain_id := cfg.src_chain_id % 65536, dst_chain_id := dst_chain_id % 65536,
            nonce },
        fee_event :=
          if 0 < total_fees then
            some { message_hash := zero32, asset := acc.mint, payer := acc.user,
                   target := acc.target_adapter_program, protocol_fee, relayer_fee,
                   fee_recipient := cfg.fee_recipient, applied_at := acc.now }
          else none }

/-! ### zpx_router lib.rs: forward_via_spoke -/

/-- The `Forwarded` event (lib.rs). -/
structure Forwarded where
  user : Pubkey
  relayer : Pubkey
  spoke_id : Nat
  adapter_program : Pubkey
  amount : Nat
  protocol_fee : Nat
  relayer_fee : Nat
  net_amount : Nat
  dst_domain : Nat
  message_account : Pubkey
  deriving DecidableEq, Repr

/-- The accounts of the `ForwardViaSpoke` context.  `protoVaultPda`/
`protoVaultBump` are `find_program_address(["hub_protocol_vault", mint])`
and `relayerVaultPda` is `find_program_address(["hub_relayer_vault",
mint])`, both external cryptographic derivations supplied as inputs. -/
structure ForwardAccounts where
  user : Pubkey
  relayer : Pubkey
  mint : Pubkey
  fromAcc : TokenAccountView
  hub_protocol_vault : TokenAccountView
  hub_relayer_vault : TokenAccountView
  relayer_token_account : TokenAccountView
  adapter_target_token_account : Pubkey
  message_account : Pubkey
  protoVaultPda : Pubkey
  protoVaultBump : Nat
  relayerVaultPda : Pubkey
  deriving DecidableEq, Repr

/-- `forward_via_spoke` of lib.rs: hub-level fee skimming and routing of
the net amount toward the spoke's adapter target account.  The two fee
computations are the source's `((amount as u128) * (bps as u128) /
10_000u128) as u64` (the final cast truncates mod `2^64`). -/
def forward_via_spoke (cfg : Config) (reg : Registry) (acc : ForwardAccounts)
    (spoke_id amount dst_domain : Nat) (_mint_recipient : List Nat)
    (is_protocol_fee is_relayer_fee : Bool) (_nonce : Nat) :
    Except ErrorCode (List TransferOp × Forwarded) :=
  if ¬ (acc.relayer = cfg.relayer_pubkey ∨ acc.relayer = cfg.admin) then .error .Unauthorized
  else match lookupSpoke reg spoke_id with
  | none => .error .AdapterNotAllowed
  | some (_, spoke) =>
  if ¬ (spoke.enabled = true ∧ spoke.paused = false) then .error .AdapterNotAllowed
  else if ¬ (cfg.protocol_fee_bps ≤ FEE_CAP_BPS) then .error .ProtocolFeeTooHigh
  else if ¬ (cfg.relayer_fee_bps ≤ RELAYER_FEE_CAP_BPS) then .error .RelayerFeeTooHigh
  else if amount = 0 then .error .ZeroAmount
  else
    let proto_fee := if is_protocol_fee then amount * cfg.protocol_fee_bps / 10000 % U64_MOD else 0
    let relayer_fee := if is_relayer_fee then amount * cfg.relayer_fee_bps / 10000 % U64_MOD else 0
    if U64_MOD ≤ proto_fee + relayer_fee then .error .MathOverflow
    else
      let total_fees := proto_fee + relayer_fee
      if amount < total_fees then .error .FeesExceedAmount
      else
        let net_amount := amount - total_fees
        if net_amount = 0 then .error .ZeroAmount
        else if acc.fromAcc.authority ≠ acc.user then .error .Unauthorized
        else if acc.fromAcc.mint ≠ acc.mint then .error .InvalidTokenProgram
        else match validate_vault_pda_or_authority acc.hub_protocol_vault
            acc.protoVaultPda acc.protoVaultBump with
        | .error e => .error e
        | .ok _ =>
        if acc.hub_relayer_vault.ownerProg ≠ TOKEN_PROGRAM_ID then .error .InvalidTokenProgram
        else if acc.hub_relayer_vault.authority ≠ acc.relayerVaultPda then
          .error .InvalidVaultOwner
        else
          let direct := spoke.direct_relayer_payout || cfg.direct_relayer_payout_default
          if 0 < relayer_fee ∧ direct = true ∧
              acc.relayer_token_account.authority ≠ cfg.relayer_pubkey then
            .error .Unauthorized
          else
            let transfers :=
              (if 0 < proto_fee then
                [{ source := acc.fromAcc.key, dest := acc.hub_protocol_vault.key,
                   amount := proto_fee : TransferOp }] else []) ++
              (if 0 < relayer_fee then
                (if direct then
                  [{ source := acc.fromAcc.key, dest := acc.relayer_token_account.key,
                     amount := relayer_fee : TransferOp }]
                else
                  [{ source := acc.fromAcc.key, dest := acc.hub_relayer_vault.key,
                     amount := relayer_fee : TransferOp }]) else []) ++
              (if 0 < net_amount then
                [{ source := acc.fromAcc.key, dest := acc.adapter_target_token_account,
                   amount := net_amount : TransferOp }] else [])
            .ok (transfers,
              { user := acc.user, relayer := acc.relayer, spoke_id,
                adapter_program := spoke.adapter_program, amount,
                protocol_fee := proto_fee, relayer_fee, net_amount, dst_domain,
                message_account := acc.message_account })

/-! ### Adapter programs: process_transfer and the replay guard -/

/-- The adapters' `AdapterError` enum. -/
inductive AdapterError
  | InvalidPayload
  | ReplayProcessed
  deriving DecidableEq, Repr

/-- The per-message `Replay` record (`processed: u8`; a record freshly
created by `init_if_needed` is zeroed, i.e. `processed = 0`). -/
structure Replay where
  processed : Nat
  deriving DecidableEq, Repr

/-- Events the adapter programs emit. -/
inductive AdapterEvent
  | transferAccepted (message_id : List Nat) (amount : Nat)
  | transferRefunded (message_id : List Nat) (reason : Nat)
  | burned (message_id : List Nat) (version : Nat)
  deriving DecidableEq, Repr

/-- `process_transfer` of `programs/zpx_adapter`: replay check first, then
payload dispatch (`payload[0] == 0` accept, `== 1` refund), then
`processed = 1`.  On error the record is unchanged (transaction rollback);
on success the returned record is the persisted one. -/
def zpx_adapter_process_transfer (replay : Replay) (message_id payload : List Nat) :
    Except AdapterError (Replay × AdapterEvent) :=
  if replay.processed ≠ 0 then .error .ReplayProcessed
  else match payload with
  | [] => .error .InvalidPayload
  | b :: _ =>
    if b = 0 then .ok ({ processed := 1 }, .transferAccepted message_id 0)
    else if b = 1 then .ok ({ processed := 1 }, .transferRefunded message_id 1)
    else .error .InvalidPayload

/-- `process_transfer` of `programs/zpx_adapter_cctp_v1`: replay check, then
`payload` must be nonempty with `payload[0] == 0`, then `processed = 1`. -/
def cctp_v1_process_transfer (replay : Replay) (message_id payload : List Nat) :
    Except AdapterError (Replay × AdapterEvent) :=
  if replay.processed ≠ 0 then .error .ReplayProcessed
  else match payload with
  | [] => .error .InvalidPayload
  | b :: _ =>
    if b ≠ 0 then .error .InvalidPayload
    else .ok ({ processed := 1 }, .burned message_id 1)

/-- `process_transfer` of `programs/zpx_adapter_cctp_v2`: replay check, then
`payload.len() >= 2 && payload[0] == 0 && payload[1] == 1`, then
`processed = 1`. -/
def cctp_v2_process_transfer (replay : Replay) (message_id payload : List Nat) :
    Except AdapterError (Replay × AdapterEvent) :=
  if replay.processed ≠ 0 then .error .ReplayProcessed
  else match payload with
  | b0 :: b1 :: _ =>
    if b0 ≠ 0 ∨ b1 ≠ 1 then .error .InvalidPayload
    else .ok ({ processed := 1 }, .burned message_id 2)
  | _ => .error .InvalidPayload

/-- Sequential execution of `process_transfer` calls against one replay
record: the hosting ledger serializes the calls, a failing call leaves the
record unchanged (rollback), a successful one persists the returned record.
Returns the final record and how many calls succeeded. -/
def runCalls (step : Replay → List Nat → List Nat → Except AdapterError (Replay × AdapterEvent)) :
    Replay → List (List Nat × List Nat) → Replay × Nat
  | r, [] => (r, 0)
  | r, (mid, pl) :: rest =>
    match step r mid pl with
    | .ok (r', _) =>
      let t := runCalls step r' rest
      (t.1, t.2 + 1)
    | .error _ => runCalls step r rest

/-! ### Small result-inspection helpers -/

/-- Whether an `Except` result is a success. -/
def isOkE {ε α : Type} : Except ε α → Bool
  | .ok _ => true
  | .error _ => false

/-- The `message_hash` field of the `UniversalBridgeInitiated` event of a
successful `universal_bridge_transfer`, if any. -/
def ubtMessageHash : Except RouterErr UbtOutcome → Option (List Nat)
  | .ok o => some o.universal_event.message_hash
  | .error _ => none

/-- The `global_route_id` field of the `UniversalBridgeInitiated` event of
a successful `universal_bridge_transfer`, if any. -/
def ubtGlobalRouteId : Except RouterErr UbtOutcome → Option (List Nat)
  | .ok o => some o.universal_event.global_route_id
  | .error _ => none

/-! ### Concrete test states (fixtures used by counterexamples and witnesses) -/

/-- A minimal live config: admin `1`, fee recipient `2`, relayer `3`,
source chain `1`, no fees configured, adapter `42` allowlisted. -/
def C4cfg : Config :=
  { admin := 1, fee_recipient := 2, src_chain_id := 1, relayer_fee_bps := 0,
    protocol_fee_bps := 0, relayer_pubkey := 3, accept_any_token := true,
    allowed_token_mint := 0, direct_relayer_payout_default := false,
    min_forward_amount := 0, adapters_len := 1,
    adapters := 42 :: List.replicate 7 0, paused := false, bump := 0 }

/-- Accounts for a plainly valid `universal_bridge_transfer` call against
`C4cfg`: user `10`, mint `11`, source token account `12`, fee-recipient
ATA `13` (owned by the fee recipient `2`), target token account `14`,
target adapter program `42`. -/
def C4acc : UbtAccounts :=
  { user := 10, mint := 11,
    fromAcc := { key := 12, ownerProg := TOKEN_PROGRAM_ID, authority := 10, mint := 11 },
    fee_recipient_ata := { key := 13, ownerProg := TOKEN_PROGRAM_ID, authority := 2, mint := 11 },
    target_token_account := { key := 14, ownerProg := TOKEN_PROGRAM_ID, authority := 5, mint := 11 },
    target_adapter_program := 42, token_program := TOKEN_PROGRAM_ID,
    expected_fee_ata := 13, now := 0 }

/-- Config with admin `1` used by the spoke-authorization counterexample. -/
def C5cfg : Config := C4cfg

/-- An empty spoke registry. -/
def emptyRegistry : Registry :=
  { spokes_len := 0, spokes := List.replicate 32 default, bump := 0 }

/-- Config for the forward-gating counterexample: relayer `3`, admin `1`. -/
def C8cfg : Config := C4cfg

/-- Forward accounts whose `relayer` signer `99` is neither the configured
relayer `3` nor the admin `1` of `C8cfg`. -/
def C8acc : ForwardAccounts :=
  { user := 10, relayer := 99, mint := 11,
    fromAcc := { key := 12, ownerProg := TOKEN_PROGRAM_ID, authority := 10, mint := 11 },
    hub_protocol_vault := { key := 20, ownerProg := TOKEN_PROGRAM_ID, authority := 21, mint := 11 },
    hub_relayer_vault := { key := 22, ownerProg := TOKEN_PROGRAM_ID, authority := 23, mint := 11 },
    relayer_token_account := { key := 24, ownerProg := TOKEN_PROGRAM_ID, authority := 3, mint := 11 },
    adapter_target_token_account := 25, message_account := 26,
    protoVaultPda := 21, protoVaultBump := 254, relayerVaultPda := 23 }

/-- Config identical to `C4cfg` except that the three fields claimed inert
are set adversarially: a huge minimum forward amount, `accept_any_token`
off, and an allowed mint (999) different from the mint in use (11). -/
def C9cfg : Config :=
  { C4cfg with
    min_forward_amount := 1000000000, accept_any_token := false,
    allowed_token_mint := 999 }

/-- Accounts for the C9 concrete run (same as `C4acc`). -/
def C9acc : UbtAccounts := C4acc

/-- Config for the concrete forward run: protocol fee 5 bps, relayer fee
100 bps, relayer `3`, admin `1`. -/
def C10cfg : Config :=
  { C4cfg with relayer_fee_bps := 100, protocol_fee_bps := 5 }

/-- Registry holding one enabled, unpaused spoke `5` bound to adapter
program `42`. -/
def C10reg : Registry :=
  { spokes_len := 1,
    spokes :=
      ({ spoke_id := 5, adapter_program := 42, enabled := true, paused := false,
         direct_relayer_payout := false, version := 1,
         metadata := List.replicate 16 0, created_at_slot := 0 } : SpokeEntry) ::
        List.replicate 31 default,
    bump := 0 }

/-- Forward accounts for a valid forward run: the configured relayer `3`
signs, the protocol vault matches Pattern B (authority = derived address),
the relayer vault's authority equals its derived address. -/
def C10acc : ForwardAccounts := { C8acc with relayer := 3 }

/-- The event a successful `forward_via_spoke C10cfg C10reg C10acc 5 1 0 []
false false 0` emits (the spec's Scenario C: amount 1, both fee flags
false, net 1). -/
def C10ev : Forwarded :=
  { user := 10, relayer := 3, spoke_id := 5, adapter_program := 42, amount := 1,
    protocol_fee := 0, relayer_fee := 0, net_amount := 1, dst_domain := 0,
    message_account := 26 }

/-! ## Theorems -/

/-- Sanity anchor for the Keccak-256 model: the standard empty-message
test vector of (legacy) Keccak-256. -/
theorem keccak256Bytes_empty_vector :
    keccak256Bytes [] =
      [0xc5, 0xd2, 0x46, 0x01, 0x86, 0xf7, 0x23, 0x3c, 0x92, 0x7e, 0x7d, 0xb2, 0xdc, 0xc7,
       0x03, 0xc0, 0xe5, 0x00, 0xb6, 0x53, 0xca, 0x82, 0x27, 0x3b, 0x7b, 0xfa, 0xd8, 0x04,
       0x5d, 0x85, 0xa4, 0x70] := by decide

/-- Sanity anchor for the Keccak-256 model: the Keccak-256 test vector for
the three-byte message `"abc"`. -/
theorem keccak256Bytes_abc_vector :
    keccak256Bytes [0x61, 0x62, 0x63] =
      [0x4e, 0x03, 0x65, 0x7a, 0xea, 0x45, 0xa9, 0x4f, 0xc7, 0xd4, 0x7b, 0xa8, 0x26, 0xc8,
       0xd6, 0x67, 0xc0, 0xd1, 0xe6, 0xe3, 0x3a, 0x64, 0xa0, 0x36, 0xec, 0x44, 0xf5, 0x8f,
       0xa1, 0x2d, 0x6c, 0x45] := by decide

/-! ### C1 and C6: the fee engine -/

/-- Claim C1: whenever `compute_fees_and_forward` succeeds, the returned
pair `(forward_amount, total_fees)` satisfies
`forward_amount + total_fees = amount` exactly,
`total_fees = protocol_fee + relayer_fee`, and `total_fees ≤ amount`
(and the amount was positive). -/
theorem C1_fee_split_exact (amount protocol_fee relayer_fee relayer_bps_cap fwd fees : Nat)
    (h : compute_fees_and_forward amount protocol_fee relayer_fee relayer_bps_cap =
      .ok (fwd, fees)) :
    0 < amount ∧ fwd + fees = amount ∧ fees = protocol_fee + relayer_fee ∧ fees ≤ amount := by
  dsimp only [compute_fees_and_forward] at h
  split_ifs at h with h1 h2 h3 h4 h5
  simp_all
  omega

/-- Concrete instance of C1 (the spec's Scenario A): amount 10000 with
protocol fee 5 and relayer fee 100 forwards 9895. -/
theorem C1_fee_split_exact_witness :
    0 < 10000 ∧ 9895 + 105 = 10000 ∧ 105 = 5 + 100 ∧ 105 ≤ 10000 :=
  C1_fee_split_exact 10000 5 100 1000 9895 105 (by decide)

/-- Claim C6: `compute_fees_and_forward` fails exactly as specified, in the
source's check order: `ZeroAmount` iff the amount is zero;
`ProtocolFeeTooHigh` iff (past that) `protocol_fee·10000 > amount·5`;
`RelayerFeeTooHigh` iff (past those) the cap is positive and
`relayer_fee·10000 > amount·cap`; `MathOverflow` iff (past those) the u64
fee sum overflows; `FeesExceedAmount` iff (past those) the fee sum exceeds
the amount; and otherwise it succeeds with the exact split. -/
theorem C6_fee_error_characterization (amount protocol_fee relayer_fee relayer_bps_cap : Nat) :
    (compute_fees_and_forward amount protocol_fee relayer_fee relayer_bps_cap =
        .error .ZeroAmount ↔ amount = 0) ∧
    (compute_fees_and_forward amount protocol_fee relayer_fee relayer_bps_cap =
        .error .ProtocolFeeTooHigh ↔
      ¬ amount = 0 ∧ amount * FEE_CAP_BPS < protocol_fee * 10000) ∧
    (compute_fees_and_forward amount protocol_fee relayer_fee relayer_bps_cap =
        .error .RelayerFeeTooHigh ↔
      ¬ amount = 0 ∧ ¬ amount * FEE_CAP_BPS < protocol_fee * 10000 ∧
        (0 < relayer_bps_cap ∧ amount * relayer_bps_cap < relayer_fee * 10000)) ∧
    (compute_fees_and_forward amount protocol_fee relayer_fee relayer_bps_cap =
        .error .MathOverflow ↔
      ¬ amount = 0 ∧ ¬ amount * FEE_CAP_BPS < protocol_fee * 10000 ∧
        ¬ (0 < relayer_bps_cap ∧ amount * relayer_bps_cap < relayer_fee * 10000) ∧
        U64_MOD ≤ protocol_fee + relayer_fee) ∧
    (compute_fees_and_forward amount protocol_fee relayer_fee relayer_bps_cap =
        .error .FeesExceedAmount ↔
      ¬ amount = 0 ∧ ¬ amount * FEE_CAP_BPS < protocol_fee * 10000 ∧
        ¬ (0 < relayer_bps_cap ∧ amount * relayer_bps_cap < relayer_fee * 10000) ∧
        ¬ U64_MOD ≤ protocol_fee + relayer_fee ∧ amount < protocol_fee + relayer_fee) ∧
    (compute_fees_and_forward amount protocol_fee relayer_fee relayer_bps_cap =
        .ok (amount - (protocol_fee + relayer_fee), protocol_fee + relayer_fee) ↔
      ¬ amount = 0 ∧ ¬ amount * FEE_CAP_BPS < protocol_fee * 10000 ∧
        ¬ (0 < relayer_bps_cap ∧ amount * relayer_bps_cap < relayer_fee * 10000) ∧
        ¬ U64_MOD ≤ protocol_fee + relayer_fee ∧ ¬ amount < protocol_fee + relayer_fee) := by
  dsimp only [compute_fees_and_forward]
  split_ifs with h1 h2 h3 h4 h5 <;> simp_all

/-! ### C7: vault authorization -/

/-- Claim C7: `validate_vault_pda_or_authority` accepts exactly the two
vault patterns — (A) the account address equals the derived vault address
and its recorded authority also equals it, (B) the address differs but the
recorded authority equals the derived address — fails
`InvalidVaultOwner`/`InvalidVaultPda` on any other combination, fails
`InvalidTokenProgram` when the account is not owned by the SPL token
program, and never validates an account whose recorded authority is not
the derived address. -/
theorem C7_vault_validation_patterns (v : TokenAccountView) (expected : Pubkey) (bump : Nat) :
    (validate_vault_pda_or_authority v expected bump = .ok (bump, expected) ↔
      v.ownerProg = TOKEN_PROGRAM_ID ∧
        ((v.key = expected ∧ v.authority = expected) ∨
          (v.key ≠ expected ∧ v.authority = expected))) ∧
    (v.ownerProg ≠ TOKEN_PROGRAM_ID →
      validate_vault_pda_or_authority v expected bump = .error .InvalidTokenProgram) ∧
    (v.ownerProg = TOKEN_PROGRAM_ID → v.key = expected → v.authority ≠ expected →
      validate_vault_pda_or_authority v expected bump = .error .InvalidVaultOwner) ∧
    (v.ownerProg = TOKEN_PROGRAM_ID → v.key ≠ expected → v.authority ≠ expected →
      validate_vault_pda_or_authority v expected bump = .error .InvalidVaultPda) ∧
    (v.authority ≠ expected → isOkE (validate_vault_pda_or_authority v expected bump) = false) := by
  unfold validate_vault_pda_or_authority
  split_ifs with h1 h2 h3 h4 <;> simp_all [isOkE]

/-! ### C2: the replay guard is one-way -/

/-- A record already marked processed blocks `zpx_adapter`'s
`process_transfer` before anything else. -/
theorem zpx_adapter_replay_blocked (r : Replay) (mid pl : List Nat) (h : r.processed ≠ 0) :
    zpx_adapter_process_transfer r mid pl = .error .ReplayProcessed := by
  simp [zpx_adapter_process_transfer, h]

/-- A record already marked processed blocks the CCTP v1 adapter. -/
theorem cctp_v1_replay_blocked (r : Replay) (mid pl : List Nat) (h : r.processed ≠ 0) :
    cctp_v1_process_transfer r mid pl = .error .ReplayProcessed := by
  simp [cctp_v1_process_transfer, h]

/-- A record already marked processed blocks the CCTP v2 adapter. -/
theorem cctp_v2_replay_blocked (r : Replay) (mid pl : List Nat) (h : r.processed ≠ 0) :
    cctp_v2_process_transfer r mid pl = .error .ReplayProcessed := by
  simp [cctp_v2_process_transfer, h]

/-- A successful `zpx_adapter` call starts from an unprocessed record and
persists `processed = 1`. -/
theorem zpx_adapter_ok_sets (r : Replay) (mid pl : List Nat) (r' : Replay) (ev : AdapterEvent)
    (h : zpx_adapter_process_transfer r mid pl = .ok (r', ev)) :
    r.processed = 0 ∧ r'.processed = 1 := by
  unfold zpx_adapter_process_transfer at h
  split_ifs at h with h1
  refine ⟨by omega, ?_⟩
  cases pl with
  | nil => simp at h
  | cons b rest =>
    dsimp only at h
    split_ifs at h with h2 h3 <;>
      (simp only [Except.ok.injEq, Prod.mk.injEq] at h
       obtain ⟨hr, -⟩ := h
       subst hr
       rfl)

/-- A successful CCTP v1 call starts from an unprocessed record and
persists `processed = 1`. -/
theorem cctp_v1_ok_sets (r : Replay) (mid pl : List Nat) (r' : Replay) (ev : AdapterEvent)
    (h : cctp_v1_process_transfer r mid pl = .ok (r', ev)) :
    r.processed = 0 ∧ r'.processed = 1 := by
  unfold cctp_v1_process_transfer at h
  split_ifs at h with h1
  refine ⟨by omega, ?_⟩
  cases pl with
  | nil => simp at h
  | cons b rest =>
    dsimp only at h
    split_ifs at h with h2
    simp only [Except.ok.injEq, Prod.mk.injEq] at h
    obtain ⟨hr, -⟩ := h
    subst hr
    rfl

/-- A successful CCTP v2 call starts from an unprocessed record and
persists `processed = 1`. -/
theorem cctp_v2_ok_sets (r : Replay) (mid pl : List Nat) (r' : Replay) (ev : AdapterEvent)
    (h : cctp_v2_process_transfer r mid pl = .ok (r', ev)) :
    r.processed = 0 ∧ r'.processed = 1 := by
  unfold cctp_v2_process_transfer at h
  split_ifs at h with h1
  refine ⟨by omega, ?_⟩
  cases pl with
  | nil => simp at h
  | cons b0 rest =>
    cases rest with
    | nil => simp at h
    | cons b1 rest' =>
      dsimp only at h
      split_ifs at h with h2
      simp only [Except.ok.injEq, Prod.mk.injEq] at h
      obtain ⟨hr, -⟩ := h
      subst hr
      rfl

/-- Once a record is processed, a whole sequence of calls yields no further
success. -/
theorem runCalls_blocked
    (step : Replay → List Nat → List Nat → Except AdapterError (Replay × AdapterEvent))
    (hblock : ∀ r mid pl, r.processed ≠ 0 → step r mid pl = .error .ReplayProcessed)
    (calls : List (List Nat × List Nat)) :
    ∀ r : Replay, r.processed ≠ 0 → (runCalls step r calls).2 = 0 := by
  induction calls with
  | nil => intro r _; rfl
  | cons c rest ih =>
    intro r hr
    obtain ⟨mid, pl⟩ := c
    simp only [runCalls, hblock r mid pl hr]
    exact ih r hr

/-- Sequential calls against one replay record succeed at most once, for
any step function that blocks processed records and marks the record on
success. -/
theorem runCalls_at_most_one
    (step : Replay → List Nat → List Nat → Except AdapterError (Replay × AdapterEvent))
    (hblock : ∀ r mid pl, r.processed ≠ 0 → step r mid pl = .error .ReplayProcessed)
    (hset : ∀ r mid pl r' ev, step r mid pl = .ok (r', ev) → r'.processed = 1)
    (calls : List (List Nat × List Nat)) :
    ∀ r : Replay, (runCalls step r calls).2 ≤ 1 := by
  induction calls with
  | nil => intro r; simp [runCalls]
  | cons c rest ih =>
    intro r
    obtain ⟨mid, pl⟩ := c
    simp only [runCalls]
    cases hs : step r mid pl with
    | error e => exact ih r
    | ok p =>
      obtain ⟨r', ev⟩ := p
      have h1 : r'.processed = 1 := hset r mid pl r' ev hs
      have h0 : (runCalls step r' rest).2 = 0 :=
        runCalls_blocked step hblock rest r' (by simp [h1])
      simp [h0]

/-- Claim C2: the replay-guard `processed` flag is one-way in every adapter
`process_transfer` (`zpx_adapter`, `zpx_adapter_cctp_v1`,
`zpx_adapter_cctp_v2`): a call finding `processed ≠ 0` fails with
`ReplayProcessed` (and by transaction rollback leaves the record
unchanged); a successful call starts from `processed = 0` and persists
`processed = 1` — so no operation ever resets the flag; hence in any
serialized sequence of calls against one record at most one call
succeeds. -/
theorem C2_replay_guard_one_way :
    (∀ (r : Replay) (mid pl : List Nat), r.processed ≠ 0 →
      zpx_adapter_process_transfer r mid pl = .error .ReplayProcessed ∧
      cctp_v1_process_transfer r mid pl = .error .ReplayProcessed ∧
      cctp_v2_process_transfer r mid pl = .error .ReplayProcessed) ∧
    (∀ (r : Replay) (mid pl : List Nat) (r' : Replay) (ev : AdapterEvent),
      zpx_adapter_process_transfer r mid pl = .ok (r', ev) ∨
        cctp_v1_process_transfer r mid pl = .ok (r', ev) ∨
        cctp_v2_process_transfer r mid pl = .ok (r', ev) →
      r.processed = 0 ∧ r'.processed = 1) ∧
    (∀ (r : Replay) (calls : List (List Nat × List Nat)),
      (runCalls zpx_adapter_process_transfer r calls).2 ≤ 1 ∧
      (runCalls cctp_v1_process_transfer r calls).2 ≤ 1 ∧
      (runCalls cctp_v2_process_transfer r calls).2 ≤ 1) := by
  refine ⟨fun r mid pl h => ⟨zpx_adapter_replay_blocked r mid pl h,
      cctp_v1_replay_blocked r mid pl h, cctp_v2_replay_blocked r mid pl h⟩,
    fun r mid pl r' ev h => ?_, fun r calls => ?_⟩
  · rcases h with h | h | h
    · exact zpx_adapter_ok_sets r mid pl r' ev h
    · exact cctp_v1_ok_sets r mid pl r' ev h
    · exact cctp_v2_ok_sets r mid pl r' ev h
  · exact ⟨runCalls_at_most_one _ zpx_adapter_replay_blocked
        (fun r mid pl r' ev h => (zpx_adapter_ok_sets r mid pl r' ev h).2) calls r,
      runCalls_at_most_one _ cctp_v1_replay_blocked
        (fun r mid pl r' ev h => (cctp_v1_ok_sets r mid pl r' ev h).2) calls r,
      runCalls_at_most_one _ cctp_v2_replay_blocked
        (fun r mid pl r' ev h => (cctp_v2_ok_sets r mid pl r' ev h).2) calls r⟩

/-! ### C3: the canonical hashing schema -/

/-- `beBytes` produces exactly `w` bytes. -/
theorem beBytes_length (w n : Nat) : (beBytes w n).length = w := by
  simp [beBytes]

/-- Claim C3 (amended): `message_hash_be` is the single-pass keccak hash of
the big-endian packed tuple (src_chain_id:u64 ∥ src_adapter:32 ∥
recipient:32 ∥ asset:32 ∥ amount:32 ∥ payload_hash:32 ∥ nonce:u64 ∥
dst_chain_id:u64), a packed buffer of 184 bytes (not 208); and
`global_route_id` is the keccak hash of BE(src_chain_id) ∥
BE(dst_chain_id) ∥ initiator:32 ∥ message_hash:32 ∥ BE(nonce), a packed
buffer of 88 bytes. -/
theorem C3_canonical_hash_packing (src_chain_id nonce dst_chain_id : Nat)
    (src_adapter recipient asset amount_be payload_hash initiator mh : List Nat)
    (h1 : src_adapter.length = 32) (h2 : recipient.length = 32) (h3 : asset.length = 32)
    (h4 : amount_be.length = 32) (h5 : payload_hash.length = 32)
    (h6 : initiator.length = 32) (h7 : mh.length = 32) :
    message_hash_be src_chain_id src_adapter recipient asset amount_be payload_hash
        nonce dst_chain_id =
      keccak256Bytes (message_packed_bytes src_chain_id src_adapter recipient asset
        amount_be payload_hash nonce dst_chain_id) ∧
    (message_packed_bytes src_chain_id src_adapter recipient asset amount_be payload_hash
        nonce dst_chain_id).length = 184 ∧
    global_route_id src_chain_id dst_chain_id initiator mh nonce =
      keccak256Bytes (route_packed_bytes src_chain_id dst_chain_id initiator mh nonce) ∧
    (route_packed_bytes src_chain_id dst_chain_id initiator mh nonce).length = 88 := by
  refine ⟨by simp [message_hash_be, keccak256], ?_, by simp [global_route_id, keccak256], ?_⟩
  · simp [message_packed_bytes, beBytes_length, h1, h2, h3, h4, h5]
  · simp [route_packed_bytes, beBytes_length, h6, h7]

/-- Concrete instance of C3 at the all-zero 32-byte fields. -/
theorem C3_canonical_hash_packing_witness :
    message_hash_be 1 (List.replicate 32 0) (List.replicate 32 0) (List.replicate 32 0)
        (List.replicate 32 0) (List.replicate 32 0) 7 2 =
      keccak256Bytes (message_packed_bytes 1 (List.replicate 32 0) (List.replicate 32 0)
        (List.replicate 32 0) (List.replicate 32 0) (List.replicate 32 0) 7 2) ∧
    (message_packed_bytes 1 (List.replicate 32 0) (List.replicate 32 0) (List.replicate 32 0)
        (List.replicate 32 0) (List.replicate 32 0) 7 2).length = 184 ∧
    global_route_id 1 2 (List.replicate 32 0) (List.replicate 32 0) 7 =
      keccak256Bytes (route_packed_bytes 1 2 (List.replicate 32 0) (List.replicate 32 0) 7) ∧
    (route_packed_bytes 1 2 (List.replicate 32 0) (List.replicate 32 0) 7).length = 88 :=
  C3_canonical_hash_packing 1 7 2 (List.replicate 32 0) (List.replicate 32 0)
    (List.replicate 32 0) (List.replicate 32 0) (List.replicate 32 0) (List.replicate 32 0)
    (List.replicate 32 0) (by simp) (by simp) (by simp) (by simp) (by simp) (by simp) (by simp)

/-- Claim C3 counterexample: at a concrete input the packed
canonical-message buffer has 184 bytes, not the 208 bytes the claim
states (8 + 5·32 + 8 + 8 = 184; "208" matches only the source's
`Vec::with_capacity(32*6 + 8 + 8)` allocation comment). -/
theorem C3_packed_length_counterexample :
    (message_packed_bytes 1 (List.replicate 32 0) (List.replicate 32 0) (List.replicate 32 0)
        (List.replicate 32 0) (List.replicate 32 0) 7 2).length = 184 ∧
    ¬ (message_packed_bytes 1 (List.replicate 32 0) (List.replicate 32 0) (List.replicate 32 0)
        (List.replicate 32 0) (List.replicate 32 0) 7 2).length = 208 := by
  constructor <;> decide

/-! ### C5: the spoke operations' admin gate -/

/-- The Boolean admin gate of the spoke operations, as a proposition. -/
theorem spoke_admin_check_iff (cfg : Config) (authority adminAcc : Pubkey) :
    spoke_admin_check cfg authority adminAcc = true ↔
      (cfg.admin = authority ∨ adminAcc = cfg.admin) := by
  simp [spoke_admin_check]

/-- Claim C5 counterexample: with configured admin `1`, a call signed by
authority `99` (not the admin) succeeds in creating a spoke, because the
separate `admin` account — an `UncheckedAccount` that does not sign — merely
carries the admin's public key.  Success therefore does not imply the
calling authority equals the configured admin. -/
theorem C5_counterexample :
    isOkE (create_spoke C5cfg emptyRegistry 99 1 7 42 false 1 none 0) = true ∧
    C5cfg.admin ≠ 99 := by
  constructor <;> decide

/-- Claim C5 (amended): `create_spoke` (and likewise `update_spoke`,
`pause_spoke`, `enable_spoke`) succeeds only when the signing authority
equals the configured admin or the supplied (unchecked, non-signing)
`admin` account's key equals the configured admin; a call satisfying
neither fails `Unauthorized` (and by rollback leaves the registry
unchanged).  The admin == caller re-check alone is not what the code
enforces: presenting the admin's public key as the unchecked `admin`
account authorizes any caller. -/
theorem C5_spoke_admin_gate :
    (∀ (cfg : Config) (reg : Registry) (authority adminAcc : Pubkey) (sid : Nat)
        (ap : Pubkey) (d : Bool) (v : Nat) (m : Option (List Nat)) (slot : Nat)
        (out : Registry),
      create_spoke cfg reg authority adminAcc sid ap d v m slot = .ok out →
      cfg.admin = authority ∨ adminAcc = cfg.admin) ∧
    (∀ (cfg : Config) (reg : Registry) (authority adminAcc : Pubkey) (sid : Nat)
        (ap : Pubkey) (d : Bool) (v : Nat) (m : Option (List Nat)) (slot : Nat),
      ¬ (cfg.admin = authority ∨ adminAcc = cfg.admin) →
      create_spoke cfg reg authority adminAcc sid ap d v m slot = .error .Unauthorized) ∧
    (∀ (cfg : Config) (reg : Registry) (authority adminAcc : Pubkey) (sid : Nat)
        (ap : Option Pubkey) (d p : Option Bool) (m : Option (List Nat)) (out : Registry),
      update_spoke cfg reg authority adminAcc sid ap d p m = .ok out →
      cfg.admin = authority ∨ adminAcc = cfg.admin) ∧
    (∀ (cfg : Config) (reg : Registry) (authority adminAcc : Pubkey) (sid : Nat)
        (ap : Option Pubkey) (d p : Option Bool) (m : Option (List Nat)),
      ¬ (cfg.admin = authority ∨ adminAcc = cfg.admin) →
      update_spoke cfg reg authority adminAcc sid ap d p m = .error .Unauthorized) ∧
    (∀ (cfg : Config) (reg : Registry) (authority adminAcc : Pubkey) (sid : Nat)
        (out : Registry),
      pause_spoke cfg reg authority adminAcc sid = .ok out →
      cfg.admin = authority ∨ adminAcc = cfg.admin) ∧
    (∀ (cfg : Config) (reg : Registry) (authority adminAcc : Pubkey) (sid : Nat),
      ¬ (cfg.admin = authority ∨ adminAcc = cfg.admin) →
      pause_spoke cfg reg authority adminAcc sid = .error .Unauthorized) ∧
    (∀ (cfg : Config) (reg : Registry) (authority adminAcc : Pubkey) (sid : Nat)
        (out : Registry),
      enable_spoke cfg reg authority adminAcc sid = .ok out →
      cfg.admin = authority ∨ adminAcc = cfg.admin) ∧
    (∀ (cfg : Config) (reg : Registry) (authority adminAcc : Pubkey) (sid : Nat),
      ¬ (cfg.admin = authority ∨ adminAcc = cfg.admin) →
      enable_spoke cfg reg authority adminAcc sid = .error .Unauthorized) := by
  have hgate : ∀ (cfg : Config) (authority adminAcc : Pubkey),
      ¬ (cfg.admin = authority ∨ adminAcc = cfg.admin) →
      ¬ spoke_admin_check cfg authority adminAcc = true := by
    intro cfg authority adminAcc hd
    rw [spoke_admin_check_iff]
    exact hd
  refine ⟨?_, ?_, ?_, ?_, ?_, ?_, ?_, ?_⟩
  · intro cfg reg authority adminAcc sid ap d v m slot out h
    unfold create_spoke at h
    split_ifs at h with hc h2 h3
    exact (spoke_admin_check_iff cfg authority adminAcc).mp hc
  · intro cfg reg authority adminAcc sid ap d v m slot hd
    unfold create_spoke
    rw [if_pos (hgate cfg authority adminAcc hd)]
  · intro cfg reg authority adminAcc sid ap d p m out h
    unfold update_spoke at h
    split_ifs at h with hc
    exact (spoke_admin_check_iff cfg authority adminAcc).mp hc
  · intro cfg reg authority adminAcc sid ap d p m hd
    unfold update_spoke
    rw [if_pos (hgate cfg authority adminAcc hd)]
  · intro cfg reg authority adminAcc sid out h
    unfold pause_spoke at h
    split_ifs at h with hc
    exact (spoke_admin_check_iff cfg authority adminAcc).mp hc
  · intro cfg reg authority adminAcc sid hd
    unfold pause_spoke
    rw [if_pos (hgate cfg authority adminAcc hd)]
  · intro cfg reg authority adminAcc sid out h
    unfold enable_spoke at h
    split_ifs at h with hc
    exact (spoke_admin_check_iff cfg authority adminAcc).mp hc
  · intro cfg reg authority adminAcc sid hd
    unfold enable_spoke
    rw [if_pos (hgate cfg authority adminAcc hd)]

/-! ### C8: spoke gating of forward_via_spoke -/

/-- If the registry scan finds index `i` holding `e`, replacing slot `i` by
an entry with the same spoke id makes the scan find the same index, now
holding the replacement. -/
theorem findSpokeIdx_set (sid : Nat) (v : SpokeEntry) :
    ∀ (l : List SpokeEntry) (len i : Nat) (e : SpokeEntry),
      findSpokeIdx l len sid = some i → l.get? i = some e → v.spoke_id = e.spoke_id →
      findSpokeIdx (l.set i v) len sid = some i ∧ (l.set i v).get? i = some v := by
  intro l
  induction l with
  | nil =>
    intro len i e h
    cases len <;> simp [findSpokeIdx] at h
  | cons e0 rest ih =>
    intro len i e h hg hv
    cases len with
    | zero => simp [findSpokeIdx] at h
    | succ n =>
      by_cases he : e0.spoke_id = sid
      · simp only [findSpokeIdx, if_pos he] at h
        injection h with h
        subst h
        rw [List.get?_cons_zero] at hg
        injection hg with hg
        subst hg
        constructor
        · simp [List.set, findSpokeIdx, hv, he]
        · simp [List.set]
      · simp only [findSpokeIdx, if_neg he, Option.map_eq_some'] at h
        obtain ⟨j, hf, hj⟩ := h
        subst hj
        rw [List.get?_cons_succ] at hg
        obtain ⟨ha, hb⟩ := ih n j e hf hg hv
        constructor
        · show findSpokeIdx (e0 :: rest.set j v) (n + 1) sid = some (j + 1)
          simp [findSpokeIdx, if_neg he, ha]
        · show (e0 :: rest.set j v).get? (j + 1) = some v
          simpa using hb

/-- Replacing the entry `lookupSpoke` found (spoke id preserved) updates
what `lookupSpoke` returns. -/
theorem lookupSpoke_set (reg : Registry) (sid i : Nat) (e v : SpokeEntry)
    (h : lookupSpoke reg sid = some (i, e)) (hv : v.spoke_id = e.spoke_id) :
    lookupSpoke { reg with spokes := (reg.spokes.set i v) } sid = some (i, v) := by
  unfold lookupSpoke at h ⊢
  cases hf : findSpokeIdx reg.spokes reg.spokes_len sid with
  | none => rw [hf] at h; simp at h
  | some j =>
    rw [hf] at h
    simp only [Option.map_eq_some'] at h
    obtain ⟨e', hg, he'⟩ := h
    obtain ⟨hj, he2⟩ := Prod.mk.injEq .. ▸ he'
    subst hj
    subst he2
    obtain ⟨ha, hb⟩ := findSpokeIdx_set sid v reg.spokes reg.spokes_len j e' hf hg hv
    simp only [ha, hb, Option.map_some']

/-- Claim C8 counterexample: a `forward_via_spoke` call whose requested
spoke is absent from the registry but whose `relayer` signer (`99`) is
neither the configured relayer nor the admin fails with `Unauthorized`,
not `AdapterNotAllowed` — the authorization check precedes the spoke
lookup. -/
theorem C8_unauthorized_precedes_spoke_check :
    forward_via_spoke C8cfg emptyRegistry C8acc 5 100 0 [] true true 0 =
      .error .Unauthorized ∧
    ErrorCode.Unauthorized ≠ ErrorCode.AdapterNotAllowed := by
  constructor <;> decide

/-- Claim C8 (amended): for every `forward_via_spoke` call that passes the
relayer/admin authorization check, a requested spoke that is absent,
disabled, or paused makes the call fail with `AdapterNotAllowed` (before
any fee computation or fund movement — the whole call aborts with no
transfer); and once `pause_spoke` succeeds for a spoke, every subsequent
authorized forward targeting that spoke fails with `AdapterNotAllowed`
until it is re-enabled. -/
theorem C8_forward_spoke_gating :
    (∀ (cfg : Config) (reg : Registry) (acc : ForwardAccounts) (sid amount dd : Nat)
        (mr : List Nat) (ipf irf : Bool) (nc : Nat),
      (acc.relayer = cfg.relayer_pubkey ∨ acc.relayer = cfg.admin) →
      (lookupSpoke reg sid = none ∨
        ∃ i e, lookupSpoke reg sid = some (i, e) ∧ (e.enabled = false ∨ e.paused = true)) →
      forward_via_spoke cfg reg acc sid amount dd mr ipf irf nc =
        .error .AdapterNotAllowed) ∧
    (∀ (cfg : Config) (reg reg' : Registry) (authority adminAcc : Pubkey) (sid : Nat),
      pause_spoke cfg reg authority adminAcc sid = .ok reg' →
      ∀ (cfg2 : Config) (acc : ForwardAccounts) (amount dd : Nat) (mr : List Nat)
        (ipf irf : Bool) (nc : Nat),
        (acc.relayer = cfg2.relayer_pubkey ∨ acc.relayer = cfg2.admin) →
        forward_via_spoke cfg2 reg' acc sid amount dd mr ipf irf nc =
          .error .AdapterNotAllowed) := by
  constructor
  · intro cfg reg acc sid amount dd mr ipf irf nc hauth hbad
    unfold forward_via_spoke
    rw [if_neg (not_not_intro hauth)]
    rcases hbad with hnone | ⟨i, e, hsome, hbad⟩
    · rw [hnone]
    · rw [hsome]
      dsimp only
      rw [if_pos ?cond]
      case cond =>
        rcases hbad with h | h <;> simp [h]
  · intro cfg reg reg' authority adminAcc sid hp cfg2 acc amount dd mr ipf irf nc hauth
    unfold pause_spoke at hp
    split_ifs at hp with hc
    cases hl : lookupSpoke reg sid with
    | none => rw [hl] at hp; simp at hp
    | some pe =>
      obtain ⟨i, e⟩ := pe
      rw [hl] at hp
      dsimp only at hp
      simp only [Except.ok.injEq] at hp
      subst hp
      have hlook := lookupSpoke_set reg sid i e { e with paused := true } hl rfl
      unfold forward_via_spoke
      rw [if_neg (not_not_intro hauth), hlook]
      dsimp only
      rw [if_pos (by simp)]

/-! ### C9: min_forward_amount, accept_any_token, allowed_token_mint are inert -/

/-- Claim C9: the config fields `min_forward_amount`, `accept_any_token`
and `allowed_token_mint` never influence behaviour: two runs of
`universal_bridge_transfer` (or of `forward_via_spoke`) from states
differing only in those three fields produce identical results, transfers
and events; in particular a concrete transfer whose forwarded amount lies
far below `min_forward_amount` and whose mint differs from
`allowed_token_mint` while `accept_any_token` is off still succeeds. -/
theorem C9_inert_config_fields :
    (∀ (cfg : Config) (m : Nat) (a : Bool) (t : Pubkey) (acc : UbtAccounts)
        (amount pf rf : Nat) (payload : List Nat) (dst nonce : Nat),
      universal_bridge_transfer
          { cfg with min_forward_amount := m, accept_any_token := a, allowed_token_mint := t }
          acc amount pf rf payload dst nonce =
        universal_bridge_transfer cfg acc amount pf rf payload dst nonce) ∧
    (∀ (cfg : Config) (m : Nat) (a : Bool) (t : Pubkey) (reg : Registry)
        (acc : ForwardAccounts) (sid amount dd : Nat) (mr : List Nat) (ipf irf : Bool)
        (nc : Nat),
      forward_via_spoke
          { cfg with min_forward_amount := m, accept_any_token := a, allowed_token_mint := t }
          reg acc sid amount dd mr ipf irf nc =
        forward_via_spoke cfg reg acc sid amount dd mr ipf irf nc) ∧
    isOkE (universal_bridge_transfer C9cfg C9acc 1000 0 0 [] 2 7) = true := by
  refine ⟨?_, ?_, by decide⟩
  · intro cfg m a t acc amount pf rf payload dst nonce
    cases cfg
    rfl
  · intro cfg m a t reg acc sid amount dd mr ipf irf nc
    cases cfg
    rfl

/-- Peel one `if cond then error else …` guard off a call known to have
succeeded: the guard did not fire. -/
theorem ite_error_ok {ε α : Type} {c : Prop} [Decidable c] {e : ε}
    {rest : Except ε α} {v : α}
    (h : (if c then Except.error e else rest) = Except.ok v) :
    ¬ c ∧ rest = Except.ok v := by
  by_cases hc : c
  · rw [if_pos hc] at h
    exact absurd h (by simp)
  · rw [if_neg hc] at h
    exact ⟨hc, h⟩

/-! ### C10: forward_via_spoke requires a strictly positive net amount -/

/-- Claim C10: a successful `forward_via_spoke` always has
`net_amount ≥ 1` (the code requires `net_amount > 0`, failing `ZeroAmount`
otherwise, so fees can never consume the whole amount), and the emitted
event's amounts balance exactly. -/
theorem C10_forward_requires_positive_net (cfg : Config) (reg : Registry)
    (acc : ForwardAccounts) (sid amount dd : Nat) (mr : List Nat) (ipf irf : Bool)
    (nc : Nat) (ts : List TransferOp) (ev : Forwarded)
    (h : forward_via_spoke cfg reg acc sid amount dd mr ipf irf nc = .ok (ts, ev)) :
    1 ≤ ev.net_amount ∧
      ev.protocol_fee + ev.relayer_fee + ev.net_amount = ev.amount := by
  dsimp only [forward_via_spoke] at h
  obtain ⟨c1, h⟩ := ite_error_ok h
  cases hl : lookupSpoke reg sid with
  | none => rw [hl] at h; exact absurd h (by simp)
  | some pe =>
    obtain ⟨i, spoke⟩ := pe
    rw [hl] at h
    dsimp only at h
    obtain ⟨c2, h⟩ := ite_error_ok h
    obtain ⟨c3, h⟩ := ite_error_ok h
    obtain ⟨c4, h⟩ := ite_error_ok h
    obtain ⟨c5, h⟩ := ite_error_ok h
    obtain ⟨c6, h⟩ := ite_error_ok h
    obtain ⟨c7, h⟩ := ite_error_ok h
    obtain ⟨c8, h⟩ := ite_error_ok h
    obtain ⟨c9, h⟩ := ite_error_ok h
    obtain ⟨c10, h⟩ := ite_error_ok h
    cases hv : validate_vault_pda_or_authority acc.hub_protocol_vault acc.protoVaultPda
        acc.protoVaultBump with
    | error e => rw [hv] at h; exact absurd h (by simp)
    | ok p =>
      rw [hv] at h
      dsimp only at h
      obtain ⟨c11, h⟩ := ite_error_ok h
      obtain ⟨c12, h⟩ := ite_error_ok h
      obtain ⟨c13, h⟩ := ite_error_ok h
      simp only [Except.ok.injEq, Prod.mk.injEq] at h
      obtain ⟨-, hev⟩ := h
      subst hev
      dsimp only
      omega

/-- Concrete instance of C10 (the spec's Scenario C): a forward of amount 1
with both fee flags off nets exactly 1. -/
theorem C10_forward_requires_positive_net_witness :
    1 ≤ C10ev.net_amount ∧
      C10ev.protocol_fee + C10ev.relayer_fee + C10ev.net_amount = C10ev.amount :=
  C10_forward_requires_positive_net C10cfg C10reg C10acc 5 1 0 [] false false 0
    [{ source := 12, dest := 25, amount := 1 }] C10ev (by decide)

/-! ### C4: the emitted event hashes -/

/-- Inversion of a successful `universal_bridge_transfer`: the emitted
`UniversalBridgeInitiated` event carries the zeroed placeholder hashes. -/
theorem ubt_ok_event_hashes (cfg : Config) (acc : UbtAccounts) (amount pf rf : Nat)
    (payload : List Nat) (dst nonce : Nat) (out : UbtOutcome)
    (h : universal_bridge_transfer cfg acc amount pf rf payload dst nonce = .ok out) :
    out.universal_event.message_hash = List.replicate 32 0 ∧
    out.universal_event.global_route_id = List.replicate 32 0 := by
  dsimp only [universal_bridge_transfer] at h
  obtain ⟨c1, h⟩ := ite_error_ok h
  obtain ⟨c2, h⟩ := ite_error_ok h
  obtain ⟨c3, h⟩ := ite_error_ok h
  obtain ⟨c4, h⟩ := ite_error_ok h
  obtain ⟨c5, h⟩ := ite_error_ok h
  obtain ⟨c6, h⟩ := ite_error_ok h
  obtain ⟨c7, h⟩ := ite_error_ok h
  obtain ⟨c8, h⟩ := ite_error_ok h
  obtain ⟨c9, h⟩ := ite_error_ok h
  cases h1 : validate_common amount payload.length cfg.paused cfg.src_chain_id with
  | error e => rw [h1] at h; exact absurd h (by simp)
  | ok u =>
    rw [h1] at h
    dsimp only at h
    cases h2 : validate_payload_len payload.length with
    | error e => rw [h2] at h; exact absurd h (by simp)
    | ok u2 =>
      rw [h2] at h
      dsimp only at h
      obtain ⟨c10, h⟩ := ite_error_ok h
      cases h3 : compute_fees_and_forward amount pf rf cfg.relayer_fee_bps with
      | error e => rw [h3] at h; exact absurd h (by simp)
      | ok p =>
        obtain ⟨fwd, fees⟩ := p
        rw [h3] at h
        dsimp only at h
        obtain ⟨c11, h⟩ := ite_error_ok h
        obtain ⟨c12, h⟩ := ite_error_ok h
        obtain ⟨c13, h⟩ := ite_error_ok h
        simp only [Except.ok.injEq] at h
        subst h
        exact ⟨rfl, rfl⟩

/-- Claim C4 (amended): every successful `universal_bridge_transfer` emits
a `UniversalBridgeInitiated` event whose `message_hash` and
`global_route_id` fields are the zeroed 32-byte placeholders — the Phase‑1
source removed hashing from the transfer path, so the event does not carry
the Canonical Hasher's values. -/
theorem C4_emitted_hashes_zero (cfg : Config) (acc : UbtAccounts) (amount pf rf : Nat)
    (payload : List Nat) (dst nonce : Nat)
    (h : isOkE (universal_bridge_transfer cfg acc amount pf rf payload dst nonce) = true) :
    ubtMessageHash (universal_bridge_transfer cfg acc amount pf rf payload dst nonce) =
      some (List.replicate 32 0) ∧
    ubtGlobalRouteId (universal_bridge_transfer cfg acc amount pf rf payload dst nonce) =
      some (List.replicate 32 0) := by
  cases hr : universal_bridge_transfer cfg acc amount pf rf payload dst nonce with
  | error e => rw [hr] at h; simp [isOkE] at h
  | ok out =>
    have hz := ubt_ok_event_hashes cfg acc amount pf rf payload dst nonce out hr
    simp [ubtMessageHash, ubtGlobalRouteId, hz.1, hz.2]

/-- Concrete successful transfer exercising `C4_emitted_hashes_zero`. -/
theorem C4_emitted_hashes_zero_witness :
    ubtMessageHash (universal_bridge_transfer C4cfg C4acc 1000 0 0 [] 2 7) =
      some (List.replicate 32 0) ∧
    ubtGlobalRouteId (universal_bridge_transfer C4cfg C4acc 1000 0 0 [] 2 7) =
      some (List.replicate 32 0) :=
  C4_emitted_hashes_zero C4cfg C4acc 1000 0 0 [] 2 7 (by decide)

/-- Claim C4 counterexample: a concrete successful transfer emits the
zeroed placeholder `message_hash`, while the Canonical Hasher's message
hash over that transfer's fields (source chain 1, source adapter 42, zero
recipient, asset mint 11, forwarded amount 1000 as a 32-byte big-endian
value, zero payload hash, nonce 7, destination chain 2) is a keccak digest
different from the zero placeholder — the event does not carry the
canonical message hash. -/
theorem C4_placeholder_vs_canonical_counterexample :
    ubtMessageHash (universal_bridge_transfer C4cfg C4acc 1000 0 0 [] 2 7) =
      some (List.replicate 32 0) ∧
    List.replicate 32 0 ≠
      message_hash_be C4cfg.src_chain_id (beBytes 32 C4acc.target_adapter_program)
        (List.replicate 32 0) (beBytes 32 C4acc.mint) (beBytes 32 1000)
        (List.replicate 32 0) 7 2 := by
  constructor <;> decide

end Zpx
